import Mathlib

set_option maxHeartbeats 1000000

/-!
Shallow embedding of the MCP protocol server found in
`03-mcp/mcp-dev-workflow/mcp_server` (files `core/protocol.py`,
`core/server.py`, `tools/base.py`, `transport/stdio.py`,
`tools/context7.py`).

JSON values (as produced by Python's `json.loads`) are modelled by the
inductive type `JsonValue`; Python's `None` and JSON `null` are both
`JsonValue.null`, exactly as in CPython where `json.loads` maps `null`
to `None`.  JSON numbers are modelled as integers: no claim touches
fractional numeric payloads, and identifiers in the protocol are
strings or integers.
-/

inductive JsonValue where
  | null : JsonValue
  | bool (b : Bool) : JsonValue
  | num (n : Int) : JsonValue
  | str (s : String) : JsonValue
  | arr (xs : List JsonValue) : JsonValue
  | obj (fields : List (String × JsonValue)) : JsonValue

abbrev JsonDict := List (String × JsonValue)

/-- Python `x == "s"` for a JSON value against a string literal (used by
the server's protocol-tag comparison `request.jsonrpc != "2.0"`). -/
def JsonValue.isStrEq : JsonValue → String → Bool
  | .str t, s => t == s
  | _, _ => false

/-- Python `x is None` (JSON `null` and Python `None` coincide here). -/
def JsonValue.isNull : JsonValue → Bool
  | .null => true
  | _ => false

/-- First-match lookup in an association list; Python dicts produced by
`json.loads` have unique keys, so this is exactly `d[k]` / `d.get(k)`. -/
def jlookup : JsonDict → String → Option JsonValue
  | [], _ => none
  | (k, v) :: rest, key => if k = key then some v else jlookup rest key

/-- Python `data.get(key)`: `None` when the key is absent (and JSON `null`
values already are `.null`). -/
def pyGet (d : JsonDict) (k : String) : JsonValue :=
  (jlookup d k).getD .null

/-- Python `data.get(key, default)`: the default applies only when the key
is absent. -/
def pyGetD (d : JsonDict) (k : String) (dflt : JsonValue) : JsonValue :=
  (jlookup d k).getD dflt

/-- Python truthiness of a JSON value (`if not x` tests). -/
def pyTruthy : JsonValue → Bool
  | .null => false
  | .bool b => b
  | .num n => !(n == 0)
  | .str s => !(s == "")
  | .arr xs => !xs.isEmpty
  | .obj fs => !fs.isEmpty

/-- Python `str(x)` as used inside f-string error messages.  The string,
integer and boolean renderings are exact; container renderings are
placeholders — no claim evaluates a message built from a container. -/
def pyStr : JsonValue → String
  | .null => "None"
  | .bool true => "True"
  | .bool false => "False"
  | .num n => toString n
  | .str s => s
  | .arr _ => "<list>"
  | .obj _ => "<dict>"

/-!
`core/protocol.py`: JSON-RPC message types.
-/

/-- `JSONRPCRequest` dataclass (`core/protocol.py`).  Python annotates
`jsonrpc`/`method` as `str` and `id` as `Optional[str | int]`, but
`from_dict` performs no validation, so every field may hold any JSON
value; `JsonValue.null` plays Python `None`. -/
structure JSONRPCRequest where
  jsonrpc : JsonValue := .str "2.0"
  method : JsonValue := .str ""
  params : JsonValue := .null
  id : JsonValue := .null

/-- `JSONRPCRequest.from_dict`: defaults apply only for absent keys. -/
def JSONRPCRequest.from_dict (data : JsonDict) : JSONRPCRequest :=
  { jsonrpc := pyGetD data "jsonrpc" (.str "2.0")
    method := pyGetD data "method" (.str "")
    params := pyGet data "params"
    id := pyGet data "id" }

/-- `JSONRPCRequest.to_dict`: `params` and `id` are omitted when `None`. -/
def JSONRPCRequest.to_dict (r : JSONRPCRequest) : JsonDict :=
  [("jsonrpc", r.jsonrpc), ("method", r.method)]
    ++ (if r.params.isNull then [] else [("params", r.params)])
    ++ (if r.id.isNull then [] else [("id", r.id)])

/-- `JSONRPCError` dataclass. -/
structure JSONRPCError where
  code : Int
  message : String
  data : Option JsonValue := none

/-- `JSONRPCResponse` dataclass (`result`/`error` are Python `None` when
absent, modelled by `Option`). -/
structure JSONRPCResponse where
  jsonrpc : String := "2.0"
  id : JsonValue := .null
  result : Option JsonValue := none
  error : Option JSONRPCError := none

/-- `JSONRPCResponse.success`. -/
def JSONRPCResponse.success (result : JsonValue) (request_id : JsonValue) :
    JSONRPCResponse :=
  { id := request_id, result := some result, error := none }

/-- `JSONRPCResponse.create_error`. -/
def JSONRPCResponse.create_error (error : JSONRPCError) (request_id : JsonValue) :
    JSONRPCResponse :=
  { id := request_id, result := none, error := some error }

/-- `JSONRPCErrorCodes` constants. -/
def JSONRPCErrorCodes.PARSE_ERROR : Int := -32700

def JSONRPCErrorCodes.INVALID_REQUEST : Int := -32600

def JSONRPCErrorCodes.METHOD_NOT_FOUND : Int := -32601

def JSONRPCErrorCodes.INVALID_PARAMS : Int := -32602

def JSONRPCErrorCodes.INTERNAL_ERROR : Int := -32603

/-- `Content` pydantic model (`type`, `text`, `data`, `mime_type`). -/
structure Content where
  type : String
  text : Option String := none
  data : Option String := none
  mime_type : Option String := none

/-- `ToolResult` pydantic model. -/
structure ToolResult where
  content : List Content
  is_error : Bool := false

/-- `ToolSchema` pydantic model. -/
structure ToolSchema where
  name : String
  description : String
  input_schema : JsonValue

/-- Python `None`-or-string rendered as a JSON value (pydantic
`model_dump` keeps `None` fields as `None`). -/
def optStrJson : Option String → JsonValue
  | none => .null
  | some s => .str s

/-- `Content.model_dump()`. -/
def Content.model_dump (c : Content) : JsonValue :=
  .obj [("type", .str c.type), ("text", optStrJson c.text),
        ("data", optStrJson c.data), ("mime_type", optStrJson c.mime_type)]

/-- `ToolResult.model_dump()`. -/
def ToolResult.model_dump (r : ToolResult) : JsonValue :=
  .obj [("content", .arr (r.content.map Content.model_dump)),
        ("is_error", .bool r.is_error)]

/-- `ToolSchema.model_dump()`. -/
def ToolSchema.model_dump (s : ToolSchema) : JsonValue :=
  .obj [("name", .str s.name), ("description", .str s.description),
        ("input_schema", s.input_schema)]

/-!
`tools/base.py`: tools and the tools manager, as much of them as the
server's dispatch path uses.  A tool's `execute` coroutine either
returns a `ToolResult` (the declared contract every tool in the
repository satisfies) or raises an exception carrying a message.
-/

/-- Outcome of awaiting `tool.execute(arguments)`. -/
inductive ExecOutcome where
  | ok (r : ToolResult) : ExecOutcome
  | raises (msg : String) : ExecOutcome

/-- A registered tool: its name, schema (`get_schema()`), and the
behaviour of its `execute` coroutine as a function of the arguments. -/
structure Tool where
  name : String
  schema : ToolSchema
  exec : JsonValue → ExecOutcome

/-!
`core/server.py`: the `MCPServer` state and `handle_request`.
-/

/-- Mutable server state relevant to request handling: the `initialized`
flag and the tools manager's registry (`ToolsManager.tools`, a dict from
name to tool, kept here as a list; `register_tool` enforces unique
names). -/
structure MCPServer where
  initialized : Bool := false
  tools : List Tool := []
  server_name : String := "mcp-dev-workflow"

/-- `ToolsManager` lookup by (string) name — dict access `self.tools`. -/
def MCPServer.find_tool (st : MCPServer) (name : String) : Option Tool :=
  st.tools.find? (fun t => t.name == name)

/-- `ToolsManager.has_tool(name)`: `name in self.tools` — a non-string
never matches a dict keyed by strings. -/
def MCPServer.has_tool (st : MCPServer) (v : JsonValue) : Bool :=
  match v with
  | .str s => (st.find_tool s).isSome
  | _ => false

/-- `InitializeParams` pydantic model after validation. -/
structure InitializeParams where
  protocol_version : String
  capabilities : JsonDict
  client_info : JsonDict

/-- Pydantic validation of `InitializeParams(**params)`: with
`populate_by_name = True` each field accepts its alias
(`protocolVersion`, `clientInfo`) or its field name; `protocol_version`
must be a string, `capabilities` and `client_info` must be objects
(`Dict[str, Any]`); extra keys are ignored (pydantic default). -/
def parseInitializeParams (p : JsonDict) : Option InitializeParams :=
  let pv := match jlookup p "protocolVersion" with
    | some v => some v
    | none => jlookup p "protocol_version"
  let caps := jlookup p "capabilities"
  let ci := match jlookup p "clientInfo" with
    | some v => some v
    | none => jlookup p "client_info"
  match pv, caps, ci with
  | some (.str s), some (.obj c), some (.obj i) =>
      some { protocol_version := s, capabilities := c, client_info := i }
  | _, _, _ => none

/-- Server constant `protocol_version`. -/
def serverProtocolVersion : String := "2024-11-05"

/-- Server constant `server_version`. -/
def serverVersion : String := "0.1.0"

/-- `ServerCapabilities` as constructed in `MCPServer.__init__`, dumped
by `model_dump()`. -/
def serverCapabilitiesJson : JsonValue :=
  .obj [("tools", .obj [("list_changed", .bool true)]),
        ("resources", .obj []), ("prompts", .obj []), ("logging", .obj [])]

/-- `InitializeResult(...).model_dump()` as built by
`_handle_initialize_method`. -/
def initializeResultJson (st : MCPServer) : JsonValue :=
  .obj [("protocol_version", .str serverProtocolVersion),
        ("capabilities", serverCapabilitiesJson),
        ("server_info", .obj [("name", .str st.server_name),
                              ("version", .str serverVersion)])]

/-- `MCPServer._handle_initialize_method`: parse failure raises
`ValueError("Invalid initialize parameters: ...")` before the
`initialized` flag is touched; success sets the flag and returns the
initialize result.  (`InitializeParams(**params)` on a non-dict raises a
`TypeError`, also wrapped.) -/
def handle_initialize_method (st : MCPServer) (params : JsonValue) :
    Except String (JsonValue × MCPServer) :=
  match params with
  | .obj p =>
      match parseInitializeParams p with
      | some _ =>
          .ok (initializeResultJson st, { st with initialized := true })
      | none => .error "Invalid initialize parameters: validation error"
  | _ => .error "Invalid initialize parameters: not a mapping"

/-- `MCPServer._handle_tools_list`: raises while uninitialized, else
returns every registered tool's dumped schema (the `params` argument is
never read). -/
def handle_tools_list (st : MCPServer) (_params : JsonValue) :
    Except String (JsonValue × MCPServer) :=
  if st.initialized = false then .error "Server not initialized"
  else
    .ok (.obj [("tools", .arr (st.tools.map fun t => t.schema.model_dump))], st)

/-- The literal error-result dict built in `_handle_tools_call`'s
`except` branch. -/
def toolFailedJson (msg : String) : JsonValue :=
  .obj [("content",
          .arr [.obj [("type", .str "text"),
                      ("text", .str ("Tool execution failed: " ++ msg))]]),
        ("is_error", .bool true)]

/-- `MCPServer._handle_tools_call`: requires `initialized`; requires a
truthy `name` param; requires the name to resolve in the manager; then
executes the tool, dumping a returned `ToolResult` or wrapping a raised
exception into the error-result dict.  `params.get` on a non-dict raises
an `AttributeError` (propagated as a fault). -/
def handle_tools_call (st : MCPServer) (params : JsonValue) :
    Except String (JsonValue × MCPServer) :=
  if st.initialized = false then .error "Server not initialized"
  else
    match params with
    | .obj p =>
        let tool_name := pyGet p "name"
        if pyTruthy tool_name = false then .error "Tool name is required"
        else if st.has_tool tool_name = false then
          .error ("Tool not found: " ++ pyStr tool_name)
        else
          let arguments := pyGetD p "arguments" (.obj [])
          match tool_name with
          | .str s =>
              match st.find_tool s with
              | some t =>
                  match t.exec arguments with
                  | .ok r => .ok (r.model_dump, st)
                  | .raises msg => .ok (toolFailedJson msg, st)
              | none => .error "Tool not found: unreachable"
          | _ => .error "Tool not found: unreachable"
    | _ => .error "object has no attribute get"

/-- The `_handlers` dispatch table (`self._handlers.get(request.method)`;
a non-string method never matches). -/
def handlerFor (m : JsonValue) :
    Option (MCPServer → JsonValue → Except String (JsonValue × MCPServer)) :=
  match m with
  | .str "initialize" => some handle_initialize_method
  | .str "tools/list" => some handle_tools_list
  | .str "tools/call" => some handle_tools_call
  | _ => none

/-- `MCPServer.handle_request` (`core/server.py`, lines 103-161), with
the source's branch order preserved: the protocol-tag check comes first,
then the notification (no-id) check, then dispatch; handler faults are
caught and turned into internal-error responses (the request has an id
in that branch).  Returns the optional response and the state after the
call. -/
def handle_request (st : MCPServer) (req : JSONRPCRequest) :
    Option JSONRPCResponse × MCPServer :=
  if req.jsonrpc.isStrEq "2.0" = false then
    (some (JSONRPCResponse.create_error
      { code := JSONRPCErrorCodes.INVALID_REQUEST,
        message := "Invalid JSON-RPC version" } req.id), st)
  else if req.id.isNull then
    (none, st)
  else
    match handlerFor req.method with
    | none =>
        (some (JSONRPCResponse.create_error
          { code := JSONRPCErrorCodes.METHOD_NOT_FOUND,
            message := "Method not found: " ++ pyStr req.method } req.id), st)
    | some h =>
        let args := if pyTruthy req.params then req.params else .obj []
        match h st args with
        | .ok (result, st') => (some (JSONRPCResponse.success result req.id), st')
        | .error msg =>
            (some (JSONRPCResponse.create_error
              { code := JSONRPCErrorCodes.INTERNAL_ERROR,
                message := "Internal error: " ++ msg } req.id), st)

/-!
`core/protocol.py` `deserialize_request` and `transport/stdio.py`
`StdioTransport.receive_message`.

The Python standard library primitives (`json.loads`, `re.search`) are
environment functions, not repository code; a raw input line is
therefore modelled by its text together with the outcomes of those
primitives on it: `loads` is `json.loads(line)` (`none` on a
`JSONDecodeError`), `regex_str_id` the capture of
`re.search(r'"id"\s*:\s*"([^"]*)"', line)` and `regex_num_id` the
capture of `re.search(r'"id"\s*:\s*(\d+)', line)`.
-/

/-- `deserialize_request(data)` as a function of the `json.loads`
outcome: a decode failure raises `ValueError("Invalid JSON: ...")`;
`from_dict` on a non-dict raises an `AttributeError` (from `.get`),
wrapped as `ValueError("Invalid request format: ...")`; on a dict it
always succeeds. -/
def deserialize_request (loads : Option JsonValue) :
    Except String JSONRPCRequest :=
  match loads with
  | none => .error "Invalid JSON"
  | some (.obj d) => .ok (JSONRPCRequest.from_dict d)
  | some _ => .error "Invalid request format"

/-- A non-empty stdin line, abstracted by the outcomes of the stdlib
parsing primitives on its text (see the section comment). -/
structure RawLine where
  text : String
  loads : Option JsonValue
  regex_str_id : Option String
  regex_num_id : Option Nat

/-- The identifier-recovery block of `receive_message` (stdio.py lines
124-144): try `json.loads` again and take `.get('id')`; on a
`JSONDecodeError` fall back to the string-id regex, then the numeric-id
regex.  When `json.loads` succeeds on a non-dict, `parsed_json.get`
raises an `AttributeError`, swallowed by the final `except Exception`,
leaving the id `None` — the regex fallbacks are *not* reached then. -/
def recover_request_id (line : RawLine) : JsonValue :=
  match line.loads with
  | some (.obj d) => pyGet d "id"
  | some _ => .null
  | none =>
      match line.regex_str_id with
      | some s => .str s
      | none =>
          match line.regex_num_id with
          | some n => .num (n : Int)
          | none => .null

/-- `StdioTransport.receive_message` on one decoded, stripped line:
returns the request handed to the server loop (if any) and the list of
responses sent through the transport while handling the line.  An empty
line yields no request and no sends; a line that deserializes yields the
request; a malformed line yields no request and exactly one parse-error
response, sent unconditionally with the best-effort-recovered id. -/
def receive_message (line : RawLine) :
    Option JSONRPCRequest × List JSONRPCResponse :=
  if line.text = "" then (none, [])
  else
    match deserialize_request line.loads with
    | .ok req => (some req, [])
    | .error e =>
        (none,
         [JSONRPCResponse.create_error
            { code := JSONRPCErrorCodes.PARSE_ERROR,
              message := "Parse error: " ++ e }
            (recover_request_id line)])

/-!
`tools/context7.py`: `Context7Client._make_request` retry loop and the
`RateLimiter`.  The network is modelled by an environment mapping each
attempt index to its outcome; `asyncio.sleep` calls are recorded in a
list.  Time units are seconds.
-/

/-- Outcome of one `self.client.request(...)` awaiting: an HTTP response
(status, optional numeric `Retry-After` header, parsed body — the
`response.json()` / `{"content": response.text}` fallback both produce a
JSON value) or a raised `httpx.TimeoutException` / `httpx.ConnectError`. -/
inductive AttemptOutcome where
  | resp (status : Nat) (retry_after : Option Nat) (body : JsonValue)
  | timeout
  | connect_error

/-- Faults propagating out of `_make_request`: a `ValueError` with a
message, or an uncaught `httpx.HTTPStatusError` from
`raise_for_status()` (4xx/5xx other than the 401/429 special cases). -/
inductive ReqError where
  | valueError (msg : String)
  | httpStatusError (status : Nat)

/-- The 401 message raised by `_make_request`. -/
def authFailedMsg : String :=
  "Authentication failed. Please check your Context7 API key. " ++
  "Ensure the key is valid and has the necessary permissions."

/-- The exhausted-429 message. -/
def rateLimitExceededMsg : String :=
  "Rate limit exceeded. Please try again later or " ++
  "reduce the frequency of requests."

/-- The exhausted-timeout message. -/
def timeoutFailedMsg : String :=
  "Request timed out after multiple attempts. " ++
  "Context7 service may be temporarily unavailable."

/-- The exhausted-connection-error message. -/
def connectFailedMsg : String :=
  "Unable to connect to Context7 service. " ++
  "Please check your internet connection and try again."

/-- The `for attempt in range(retries + 1)` loop of `_make_request`,
with `fuel` the number of loop iterations left (initially
`retries + 1`), `attempt` the current 0-based index, and `sleeps` the
`asyncio.sleep` durations accumulated so far.  Returns the result, the
number of attempts actually made, and the sleeps.  Falling out of the
loop (`fuel = 0`) raises `ValueError("Maximum retry attempts
exceeded")`. -/
def makeRequestAux (env : Nat → AttemptOutcome) (retries : Nat) :
    Nat → Nat → List Nat → Except ReqError JsonValue × Nat × List Nat
  | 0, attempt, sleeps =>
      (.error (.valueError "Maximum retry attempts exceeded"), attempt, sleeps)
  | fuel + 1, attempt, sleeps =>
      match env attempt with
      | .resp status ra body =>
          if status = 401 then
            (.error (.valueError authFailedMsg), attempt + 1, sleeps)
          else if status = 429 then
            if attempt < retries then
              makeRequestAux env retries fuel (attempt + 1) (sleeps ++ [ra.getD 60])
            else (.error (.valueError rateLimitExceededMsg), attempt + 1, sleeps)
          else if 400 ≤ status then
            (.error (.httpStatusError status), attempt + 1, sleeps)
          else (.ok body, attempt + 1, sleeps)
      | .timeout =>
          if attempt < retries then
            makeRequestAux env retries fuel (attempt + 1) (sleeps ++ [2 ^ attempt])
          else (.error (.valueError timeoutFailedMsg), attempt + 1, sleeps)
      | .connect_error =>
          if attempt < retries then
            makeRequestAux env retries fuel (attempt + 1) (sleeps ++ [2 ^ attempt])
          else (.error (.valueError connectFailedMsg), attempt + 1, sleeps)

/-- `Context7Client._make_request` (after the `rate_limiter.acquire()`
call, which is modelled separately by `RateLimiter.acquire`). -/
def make_request (env : Nat → AttemptOutcome) (retries : Nat) :
    Except ReqError JsonValue × Nat × List Nat :=
  makeRequestAux env retries (retries + 1) 0 []

/-- `RateLimiter` state: the constructor arguments and the timestamp
list.  Timestamps are rationals (Python `datetime` has microsecond
resolution; subtraction yields fractional seconds). -/
structure RateLimiter where
  max_requests : Nat := 60
  time_window : Nat := 60
  requests : List ℚ := []

/-- Python `min(x :: xs)` of a non-empty list. -/
def pyMin (x : ℚ) (xs : List ℚ) : ℚ :=
  xs.foldl min x

/-- `RateLimiter.acquire` at wall-clock time `now`: prune timestamps at
or before `now - time_window`; if the remaining count is at the limit,
sleep until the oldest retained timestamp exits the window (no sleep if
that duration is not positive), then record `now`.  Returns the slept
duration and the new state; `none` models the `ValueError` Python's
`min([])` raises in the degenerate `max_requests = 0` corner. -/
def RateLimiter.acquire (st : RateLimiter) (now : ℚ) :
    Option (ℚ × RateLimiter) :=
  let cutoff : ℚ := now - (st.time_window : ℚ)
  let pruned := st.requests.filter (fun t => cutoff < t)
  if st.max_requests ≤ pruned.length then
    match pruned with
    | [] => none
    | x :: xs =>
        let oldest := pyMin x xs
        let wait := oldest + (st.time_window : ℚ) - now
        let slept := if 0 < wait then wait else 0
        some (slept, { st with requests := (x :: xs) ++ [now] })
  else
    some (0, { st with requests := pruned ++ [now] })

/-!
Helper predicates and lemmas used by the verification theorems.
-/

/-- The error code carried by an optional response, if any. -/
def respErrorCode : Option JSONRPCResponse → Option Int
  | some resp => resp.error.map (fun e => e.code)
  | none => none

/-- A response is present, has no `error` field and has a `result`
field. -/
def respIsSuccess : Option JSONRPCResponse → Bool
  | some resp => resp.error.isNone && resp.result.isSome
  | none => false

/-- Field access on a JSON object value (null on non-objects). -/
def jsonField (v : JsonValue) (k : String) : JsonValue :=
  match v with
  | .obj d => pyGet d k
  | _ => .null

theorem isStrEq_of_eq {v : JsonValue} {s : String} (h : v = .str s) :
    v.isStrEq s = true := by
  subst h; simp [JsonValue.isStrEq]

theorem isStrEq_false_of_ne {v : JsonValue} {s : String} (h : v ≠ .str s) :
    v.isStrEq s = false := by
  cases v <;> simp_all [JsonValue.isStrEq]

theorem pyMin_mem (x : ℚ) (xs : List ℚ) : pyMin x xs ∈ x :: xs := by
  induction xs generalizing x with
  | nil => simp [pyMin]
  | cons y ys ih =>
      have h := ih (min x y)
      rcases List.mem_cons.mp h with h1 | h1
      · rcases le_total x y with hxy | hxy
        · simp only [pyMin, List.foldl] at h1 ⊢
          rw [h1, min_eq_left hxy]; exact List.mem_cons_self _ _
        · simp only [pyMin, List.foldl] at h1 ⊢
          rw [h1, min_eq_right hxy]
          exact List.mem_cons_of_mem _ (List.mem_cons_self _ _)
      · simp only [pyMin, List.foldl]
        exact List.mem_cons_of_mem _ (List.mem_cons_of_mem _ h1)

theorem to_dict_get_method (r : JSONRPCRequest) :
    pyGet r.to_dict "method" = r.method := by
  obtain ⟨j, m, p, i⟩ := r
  cases p <;> cases i <;>
    simp [JSONRPCRequest.to_dict, pyGet, jlookup, JsonValue.isNull]

theorem to_dict_get_params (r : JSONRPCRequest) :
    pyGet r.to_dict "params" = r.params := by
  obtain ⟨j, m, p, i⟩ := r
  cases p <;> cases i <;>
    simp [JSONRPCRequest.to_dict, pyGet, jlookup, JsonValue.isNull]

theorem to_dict_get_id (r : JSONRPCRequest) :
    pyGet r.to_dict "id" = r.id := by
  obtain ⟨j, m, p, i⟩ := r
  cases p <;> cases i <;>
    simp [JSONRPCRequest.to_dict, pyGet, jlookup, JsonValue.isNull]

/-- C1: the claim that a notification (absent id) never produces a
response is refuted by the code: in `handle_request` the protocol-tag
check precedes the notification check, so an id-less envelope whose tag
is `"1.0"` receives an invalid-request error response (with null id). -/
theorem handle_request_notification_bad_tag_responds :
    (handle_request {} { jsonrpc := .str "1.0", method := .str "foo" }).1
        = some (JSONRPCResponse.create_error
            { code := JSONRPCErrorCodes.INVALID_REQUEST,
              message := "Invalid JSON-RPC version" } .null)
    ∧ (handle_request {} { jsonrpc := .str "1.0", method := .str "foo" }).1
        ≠ none := by
  refine ⟨rfl, ?_⟩
  intro h
  exact Option.noConfusion h

/-- C1 (amended): an id-less envelope whose protocol tag equals `"2.0"`
produces no response and leaves the state unchanged, whatever the
method; an envelope (id-less or not) whose tag differs from `"2.0"`
receives an invalid-request error response echoing its (possibly null)
id. -/
theorem handle_request_notification_semantics
    (st : MCPServer) (req : JSONRPCRequest) :
    (req.jsonrpc = .str "2.0" → req.id = .null →
      (handle_request st req).1 = none ∧ (handle_request st req).2 = st)
    ∧ (req.jsonrpc ≠ .str "2.0" →
      (handle_request st req).1 =
        some (JSONRPCResponse.create_error
          { code := JSONRPCErrorCodes.INVALID_REQUEST,
            message := "Invalid JSON-RPC version" } req.id)) := by
  constructor
  · intro hv hid
    simp [handle_request, isStrEq_of_eq hv, hid, JsonValue.isNull]
  · intro hv
    simp [handle_request, isStrEq_false_of_ne hv]

/-- C1 witness: a concrete unknown-method notification with tag `"2.0"`
is silently dropped. -/
theorem handle_request_notification_semantics_witness :
    (handle_request { initialized := false, tools := [] }
        { jsonrpc := .str "2.0", method := .str "unknown/notify" }).1 = none :=
  ((handle_request_notification_semantics
      { initialized := false, tools := [] }
      { jsonrpc := .str "2.0", method := .str "unknown/notify" }).1 rfl rfl).1

/-- C6: deserializing a well-formed envelope dictionary (one carrying
`jsonrpc` and `method` keys) and serializing the result reproduces the
original `method`, `params` and `id` fields. -/
theorem codec_roundtrip (d : JsonDict)
    (_hj : (jlookup d "jsonrpc").isSome = true)
    (hm : (jlookup d "method").isSome = true) :
    pyGet (JSONRPCRequest.from_dict d).to_dict "method" = pyGet d "method"
    ∧ pyGet (JSONRPCRequest.from_dict d).to_dict "params" = pyGet d "params"
    ∧ pyGet (JSONRPCRequest.from_dict d).to_dict "id" = pyGet d "id" := by
  obtain ⟨mv, hmv⟩ := Option.isSome_iff_exists.mp hm
  refine ⟨?_, ?_, ?_⟩
  · rw [to_dict_get_method]
    simp [JSONRPCRequest.from_dict, pyGetD, pyGet, hmv]
  · rw [to_dict_get_params]
    rfl
  · rw [to_dict_get_id]
    rfl

/-- C6 witness: round-trip on a concrete request dictionary. -/
theorem codec_roundtrip_witness :
    (jlookup [("jsonrpc", JsonValue.str "2.0"), ("method", JsonValue.str "ping"),
              ("params", JsonValue.obj []), ("id", JsonValue.num 1)]
        "jsonrpc").isSome = true
    ∧ (jlookup [("jsonrpc", JsonValue.str "2.0"), ("method", JsonValue.str "ping"),
                ("params", JsonValue.obj []), ("id", JsonValue.num 1)]
        "method").isSome = true
    ∧ pyGet (JSONRPCRequest.from_dict
        [("jsonrpc", JsonValue.str "2.0"), ("method", JsonValue.str "ping"),
         ("params", JsonValue.obj []), ("id", JsonValue.num 1)]).to_dict "method"
      = pyGet [("jsonrpc", JsonValue.str "2.0"), ("method", JsonValue.str "ping"),
               ("params", JsonValue.obj []), ("id", JsonValue.num 1)] "method" :=
  ⟨rfl, rfl,
   (codec_roundtrip
      [("jsonrpc", JsonValue.str "2.0"), ("method", JsonValue.str "ping"),
       ("params", JsonValue.obj []), ("id", JsonValue.num 1)] rfl rfl).1⟩

theorem invalid_request_of_bad_tag (st : MCPServer) (req : JSONRPCRequest)
    (h : req.jsonrpc.isStrEq "2.0" = false) :
    respErrorCode (handle_request st req).1
      = some JSONRPCErrorCodes.INVALID_REQUEST := by
  unfold handle_request
  rw [h]
  simp [respErrorCode, JSONRPCResponse.create_error]

theorem no_invalid_request_of_tag_ok (st : MCPServer) (req : JSONRPCRequest)
    (h : req.jsonrpc = .str "2.0") :
    respErrorCode (handle_request st req).1
      ≠ some JSONRPCErrorCodes.INVALID_REQUEST := by
  intro hbad
  unfold handle_request at hbad
  rw [isStrEq_of_eq h] at hbad
  simp at hbad
  split at hbad
  · simp [respErrorCode] at hbad
  · split at hbad
    · simp [respErrorCode, JSONRPCResponse.create_error,
            JSONRPCErrorCodes.METHOD_NOT_FOUND,
            JSONRPCErrorCodes.INVALID_REQUEST] at hbad
    · split at hbad
      · simp [respErrorCode, JSONRPCResponse.success] at hbad
      · simp [respErrorCode, JSONRPCResponse.create_error,
              JSONRPCErrorCodes.INTERNAL_ERROR,
              JSONRPCErrorCodes.INVALID_REQUEST] at hbad

theorem handle_request_dispatch (st : MCPServer) (req : JSONRPCRequest)
    (h : MCPServer → JsonValue → Except String (JsonValue × MCPServer))
    (hv : req.jsonrpc = .str "2.0") (hid : req.id.isNull = false)
    (hh : handlerFor req.method = some h) :
    handle_request st req =
      match h st (if pyTruthy req.params then req.params else .obj []) with
      | .ok (result, st') => (some (JSONRPCResponse.success result req.id), st')
      | .error msg =>
          (some (JSONRPCResponse.create_error
            { code := JSONRPCErrorCodes.INTERNAL_ERROR,
              message := "Internal error: " ++ msg } req.id), st) := by
  simp [handle_request, isStrEq_of_eq hv, hid, hh]

/-- C9: any JSON object deserializes successfully; an absent `jsonrpc`
key defaults to `"2.0"` and an absent `method` key to `""`, so an
envelope omitting the protocol tag is never answered with an
invalid-request error — only one whose `jsonrpc` key holds a value other
than the string `"2.0"` is. -/
theorem deserialize_object_total (d : JsonDict) :
    deserialize_request (some (.obj d)) = .ok (JSONRPCRequest.from_dict d)
    ∧ (jlookup d "jsonrpc" = none →
        (JSONRPCRequest.from_dict d).jsonrpc = .str "2.0")
    ∧ (jlookup d "method" = none →
        (JSONRPCRequest.from_dict d).method = .str "")
    ∧ (jlookup d "jsonrpc" = none → ∀ st : MCPServer,
        respErrorCode (handle_request st (JSONRPCRequest.from_dict d)).1
          ≠ some JSONRPCErrorCodes.INVALID_REQUEST)
    ∧ (∀ v, jlookup d "jsonrpc" = some v → v ≠ .str "2.0" →
        ∀ st : MCPServer,
        respErrorCode (handle_request st (JSONRPCRequest.from_dict d)).1
          = some JSONRPCErrorCodes.INVALID_REQUEST) := by
  refine ⟨rfl, ?_, ?_, ?_, ?_⟩
  · intro h
    simp [JSONRPCRequest.from_dict, pyGetD, h]
  · intro h
    simp [JSONRPCRequest.from_dict, pyGetD, h]
  · intro h st
    apply no_invalid_request_of_tag_ok
    simp [JSONRPCRequest.from_dict, pyGetD, h]
  · intro v hv hne st
    apply invalid_request_of_bad_tag
    have : (JSONRPCRequest.from_dict d).jsonrpc = v := by
      simp [JSONRPCRequest.from_dict, pyGetD, hv]
    rw [this]
    exact isStrEq_false_of_ne hne

/-- C9 witness: the empty object deserializes, defaults both fields, and
is not rejected as an invalid request. -/
theorem deserialize_object_total_witness :
    deserialize_request (some (.obj [])) = .ok (JSONRPCRequest.from_dict [])
    ∧ (JSONRPCRequest.from_dict []).jsonrpc = .str "2.0"
    ∧ (JSONRPCRequest.from_dict []).method = .str ""
    ∧ respErrorCode
        (handle_request { initialized := false, tools := [] }
          (JSONRPCRequest.from_dict [])).1
        ≠ some JSONRPCErrorCodes.INVALID_REQUEST :=
  ⟨(deserialize_object_total []).1,
   (deserialize_object_total []).2.1 rfl,
   (deserialize_object_total []).2.2.1 rfl,
   (deserialize_object_total []).2.2.2.1 rfl { initialized := false, tools := [] }⟩

theorem args_of_obj (req : JSONRPCRequest) (p : JsonDict)
    (hp : req.params = .obj p) :
    (if pyTruthy req.params then req.params else .obj []) = .obj p := by
  rw [hp]
  cases p <;> simp [pyTruthy]

/-- C2: a `tools/call` request (with id) on an initialized server naming
a registered tool whose execution raises is answered with a *successful*
JSON-RPC response (result present, no error field) whose payload is the
error-result dict: `is_error` true and a content item describing the
failure. -/
theorem tools_call_fault_success (st : MCPServer) (req : JSONRPCRequest)
    (p : JsonDict) (t : Tool) (name msg : String)
    (hinit : st.initialized = true)
    (hv : req.jsonrpc = .str "2.0")
    (hid : req.id.isNull = false)
    (hm : req.method = .str "tools/call")
    (hp : req.params = .obj p)
    (hname : pyGet p "name" = .str name)
    (hne : name ≠ "")
    (hfind : st.find_tool name = some t)
    (hexec : t.exec (pyGetD p "arguments" (.obj [])) = .raises msg) :
    (handle_request st req).1
      = some { id := req.id, result := some (toolFailedJson msg),
               error := none }
    ∧ jsonField (toolFailedJson msg) "is_error" = .bool true
    ∧ jsonField (toolFailedJson msg) "content"
      = .arr [.obj [("type", .str "text"),
                    ("text", .str ("Tool execution failed: " ++ msg))]] := by
  have hh : handlerFor req.method = some handle_tools_call := by
    rw [hm]; rfl
  have hd := handle_request_dispatch st req handle_tools_call hv hid hh
  rw [args_of_obj req p hp] at hd
  have hcall : handle_tools_call st (.obj p) = .ok (toolFailedJson msg, st) := by
    simp [handle_tools_call, hinit, hname, pyTruthy, hne,
          MCPServer.has_tool, hfind, hexec]
  rw [hd, hcall]
  exact ⟨rfl, rfl, rfl⟩

/-- C2 witness: a concrete registered tool raising `"boom"`. -/
theorem tools_call_fault_success_witness :
    (handle_request
        { initialized := true,
          tools := [{ name := "echo",
                      schema := { name := "echo", description := "d",
                                  input_schema := .obj [] },
                      exec := fun _ => .raises "boom" }] }
        { jsonrpc := .str "2.0", method := .str "tools/call",
          params := .obj [("name", .str "echo")], id := .num 1 }).1
      = some { id := .num 1, result := some (toolFailedJson "boom"),
               error := none } :=
  (tools_call_fault_success
      { initialized := true,
        tools := [{ name := "echo",
                    schema := { name := "echo", description := "d",
                                input_schema := .obj [] },
                    exec := fun _ => .raises "boom" }] }
      { jsonrpc := .str "2.0", method := .str "tools/call",
        params := .obj [("name", .str "echo")], id := .num 1 }
      [("name", .str "echo")]
      { name := "echo",
        schema := { name := "echo", description := "d",
                    input_schema := .obj [] },
        exec := fun _ => .raises "boom" }
      "echo" "boom" rfl rfl rfl rfl rfl rfl (by decide) rfl rfl).1

/-- C3: while uninitialized, `tools/list` and `tools/call` requests
(with id) are answered with an internal-error response (a code distinct
from method-not-found) saying the server is not initialized; a
well-formed `initialize` call flips the state to initialized and
succeeds, after which `tools/list` succeeds and `tools/call` on a
registered tool succeeds whatever the tool execution's outcome. -/
theorem init_gating (st : MCPServer) (req : JSONRPCRequest) :
    (st.initialized = false → req.jsonrpc = .str "2.0" →
      req.id.isNull = false →
      (req.method = .str "tools/list" ∨ req.method = .str "tools/call") →
      (handle_request st req).1
        = some (JSONRPCResponse.create_error
            { code := JSONRPCErrorCodes.INTERNAL_ERROR,
              message := "Internal error: Server not initialized" } req.id))
    ∧ JSONRPCErrorCodes.INTERNAL_ERROR ≠ JSONRPCErrorCodes.METHOD_NOT_FOUND
    ∧ (∀ p : JsonDict, req.jsonrpc = .str "2.0" → req.id.isNull = false →
        req.method = .str "initialize" → req.params = .obj p →
        parseInitializeParams p ≠ none →
        (handle_request st req).2.initialized = true
        ∧ respIsSuccess (handle_request st req).1 = true)
    ∧ (st.initialized = true → req.jsonrpc = .str "2.0" →
        req.id.isNull = false → req.method = .str "tools/list" →
        respIsSuccess (handle_request st req).1 = true)
    ∧ (∀ (p : JsonDict) (n : String), st.initialized = true →
        req.jsonrpc = .str "2.0" → req.id.isNull = false →
        req.method = .str "tools/call" → req.params = .obj p →
        pyGet p "name" = .str n → n ≠ "" →
        (st.find_tool n).isSome = true →
        respIsSuccess (handle_request st req).1 = true) := by
  refine ⟨?_, by decide, ?_, ?_, ?_⟩
  · intro hinit hv hid hmethod
    rcases hmethod with hm | hm
    · have hh : handlerFor req.method = some handle_tools_list := by
        rw [hm]; rfl
      have hd := handle_request_dispatch st req handle_tools_list hv hid hh
      have hcall : ∀ a, handle_tools_list st a = .error "Server not initialized" := by
        intro a; simp [handle_tools_list, hinit]
      rw [hd, hcall]
      rfl
    · have hh : handlerFor req.method = some handle_tools_call := by
        rw [hm]; rfl
      have hd := handle_request_dispatch st req handle_tools_call hv hid hh
      have hcall : ∀ a, handle_tools_call st a = .error "Server not initialized" := by
        intro a; simp [handle_tools_call, hinit]
      rw [hd, hcall]
      rfl
  · intro p hv hid hm hp hparse
    obtain ⟨ip, hip⟩ := Option.ne_none_iff_exists'.mp hparse
    have hh : handlerFor req.method = some handle_initialize_method := by
      rw [hm]; rfl
    have hd := handle_request_dispatch st req handle_initialize_method hv hid hh
    rw [args_of_obj req p hp] at hd
    have hcall : handle_initialize_method st (.obj p)
        = .ok (initializeResultJson st, { st with initialized := true }) := by
      simp [handle_initialize_method, hip]
    rw [hd, hcall]
    exact ⟨rfl, rfl⟩
  · intro hinit hv hid hm
    have hh : handlerFor req.method = some handle_tools_list := by
      rw [hm]; rfl
    have hd := handle_request_dispatch st req handle_tools_list hv hid hh
    have hcall : ∀ a, handle_tools_list st a
        = .ok (.obj [("tools", .arr (st.tools.map fun t => t.schema.model_dump))], st) := by
      intro a; simp [handle_tools_list, hinit]
    rw [hd, hcall]
    rfl
  · intro p n hinit hv hid hm hp hname hne hfind
    obtain ⟨t, ht⟩ := Option.isSome_iff_exists.mp hfind
    have hh : handlerFor req.method = some handle_tools_call := by
      rw [hm]; rfl
    have hd := handle_request_dispatch st req handle_tools_call hv hid hh
    rw [args_of_obj req p hp] at hd
    cases hex : t.exec (pyGetD p "arguments" (.obj [])) with
    | ok r =>
        have hcall : handle_tools_call st (.obj p) = .ok (r.model_dump, st) := by
          simp [handle_tools_call, hinit, hname, pyTruthy, hne,
                MCPServer.has_tool, ht, hex]
        rw [hd, hcall]
        rfl
    | raises m =>
        have hcall : handle_tools_call st (.obj p) = .ok (toolFailedJson m, st) := by
          simp [handle_tools_call, hinit, hname, pyTruthy, hne,
                MCPServer.has_tool, ht, hex]
        rw [hd, hcall]
        rfl

/-- C3 witness: a concrete `tools/list` request against an uninitialized
server draws the internal-error response. -/
theorem init_gating_witness :
    (handle_request { initialized := false, tools := [] }
        { jsonrpc := .str "2.0", method := .str "tools/list",
          id := .num 7 }).1
      = some (JSONRPCResponse.create_error
          { code := JSONRPCErrorCodes.INTERNAL_ERROR,
            message := "Internal error: Server not initialized" } (.num 7)) :=
  (init_gating { initialized := false, tools := [] }
      { jsonrpc := .str "2.0", method := .str "tools/list", id := .num 7 }).1
    rfl rfl rfl (Or.inl rfl)

/-- C4: a `tools/call` request (with id) on an initialized server whose
(non-empty string) `name` parameter does not resolve in the tools
manager is answered with a JSON-RPC *error* response — not a successful
tool-result envelope — whose message says the tool was not found. -/
theorem tools_call_unknown_tool_error (st : MCPServer) (req : JSONRPCRequest)
    (p : JsonDict) (n : String)
    (hinit : st.initialized = true)
    (hv : req.jsonrpc = .str "2.0")
    (hid : req.id.isNull = false)
    (hm : req.method = .str "tools/call")
    (hp : req.params = .obj p)
    (hname : pyGet p "name" = .str n)
    (hne : n ≠ "")
    (hnf : st.find_tool n = none) :
    (handle_request st req).1
      = some (JSONRPCResponse.create_error
          { code := JSONRPCErrorCodes.INTERNAL_ERROR,
            message := "Internal error: Tool not found: " ++ n } req.id)
    ∧ respIsSuccess (handle_request st req).1 = false := by
  have hh : handlerFor req.method = some handle_tools_call := by
    rw [hm]; rfl
  have hd := handle_request_dispatch st req handle_tools_call hv hid hh
  rw [args_of_obj req p hp] at hd
  have hcall : handle_tools_call st (.obj p) = .error ("Tool not found: " ++ n) := by
    simp [handle_tools_call, hinit, hname, pyTruthy, hne,
          MCPServer.has_tool, hnf, pyStr]
  rw [hd, hcall]
  have hmsg : "Internal error: " ++ ("Tool not found: " ++ n)
      = "Internal error: Tool not found: " ++ n := by
    rw [← String.append_assoc]; congr 1
  constructor
  · rw [← hmsg]
  · rfl

/-- C4 witness: calling the unregistered tool `"nope"`. -/
theorem tools_call_unknown_tool_error_witness :
    (handle_request { initialized := true, tools := [] }
        { jsonrpc := .str "2.0", method := .str "tools/call",
          params := .obj [("name", .str "nope")], id := .num 3 }).1
      = some (JSONRPCResponse.create_error
          { code := JSONRPCErrorCodes.INTERNAL_ERROR,
            message := "Internal error: Tool not found: " ++ "nope" } (.num 3)) :=
  (tools_call_unknown_tool_error { initialized := true, tools := [] }
      { jsonrpc := .str "2.0", method := .str "tools/call",
        params := .obj [("name", .str "nope")], id := .num 3 }
      [("name", .str "nope")] "nope"
      rfl rfl rfl rfl rfl rfl (by decide) rfl).1

/-- C10: an `initialize` call (with id) whose parameters fail pydantic
validation is answered with an internal-error response and leaves the
server state — in particular the `initialized` flag — unchanged; the
flag is set (only) by a successfully parsing `initialize`. -/
theorem initialize_atomic (st : MCPServer) (req : JSONRPCRequest)
    (p : JsonDict)
    (hv : req.jsonrpc = .str "2.0")
    (hid : req.id.isNull = false)
    (hm : req.method = .str "initialize")
    (hp : req.params = .obj p)
    (hfail : parseInitializeParams p = none) :
    (handle_request st req).2 = st
    ∧ (handle_request st req).1
      = some (JSONRPCResponse.create_error
          { code := JSONRPCErrorCodes.INTERNAL_ERROR,
            message :=
              "Internal error: Invalid initialize parameters: validation error" }
          req.id)
    ∧ (∀ (q : JsonDict) (st' : MCPServer), parseInitializeParams q ≠ none →
        ∃ out, handle_initialize_method st' (.obj q) = .ok out
          ∧ out.2.initialized = true) := by
  have hh : handlerFor req.method = some handle_initialize_method := by
    rw [hm]; rfl
  have hd := handle_request_dispatch st req handle_initialize_method hv hid hh
  rw [args_of_obj req p hp] at hd
  have hcall : handle_initialize_method st (.obj p)
      = .error "Invalid initialize parameters: validation error" := by
    simp [handle_initialize_method, hfail]
  rw [hd, hcall]
  refine ⟨rfl, rfl, ?_⟩
  intro q st' hq
  obtain ⟨ip, hip⟩ := Option.ne_none_iff_exists'.mp hq
  exact ⟨(initializeResultJson st', { st' with initialized := true }),
         by simp [handle_initialize_method, hip], rfl⟩

/-- C10 witness: `initialize` with empty params fails validation, the
uninitialized server stays uninitialized and reports an internal
error. -/
theorem initialize_atomic_witness :
    (handle_request { initialized := false, tools := [] }
        { jsonrpc := .str "2.0", method := .str "initialize",
          params := .obj [], id := .num 2 }).2
      = { initialized := false, tools := [] }
    ∧ (handle_request { initialized := false, tools := [] }
        { jsonrpc := .str "2.0", method := .str "initialize",
          params := .obj [], id := .num 2 }).1
      = some (JSONRPCResponse.create_error
          { code := JSONRPCErrorCodes.INTERNAL_ERROR,
            message :=
              "Internal error: Invalid initialize parameters: validation error" }
          (.num 2)) :=
  ⟨(initialize_atomic { initialized := false, tools := [] }
      { jsonrpc := .str "2.0", method := .str "initialize",
        params := .obj [], id := .num 2 } [] rfl rfl rfl rfl rfl).1,
   (initialize_atomic { initialized := false, tools := [] }
      { jsonrpc := .str "2.0", method := .str "initialize",
        params := .obj [], id := .num 2 } [] rfl rfl rfl rfl rfl).2.1⟩

/-- C5: the claim that a malformed notification-shaped line with no
recoverable identifier produces no response is refuted by the code:
`receive_message` sends the parse-error response unconditionally.  On
the line `"invalid json"` (unparseable, no id anywhere) exactly one
parse-error response with null id is sent. -/
theorem receive_no_id_still_responds :
    (receive_message
        { text := "invalid json", loads := none,
          regex_str_id := none, regex_num_id := none }).2 ≠ []
    ∧ receive_message
        { text := "invalid json", loads := none,
          regex_str_id := none, regex_num_id := none }
      = (none,
         [JSONRPCResponse.create_error
            { code := JSONRPCErrorCodes.PARSE_ERROR,
              message := "Parse error: " ++ "Invalid JSON" } .null]) := by
  refine ⟨?_, rfl⟩
  intro h
  exact List.noConfusion h

/-- C5 (amended): a non-empty line that fails to deserialize yields no
request for the server loop and exactly one parse-error response, sent
through the same transport and correlated to the best-effort-recovered
identifier (structured parse first, then the string-id and numeric-id
regex scans) — with a null identifier, rather than silence, when none
was recoverable. -/
theorem receive_malformed_sends_one_error (line : RawLine) (e : String)
    (hne : line.text ≠ "")
    (hfail : deserialize_request line.loads = .error e) :
    (receive_message line).1 = none
    ∧ (receive_message line).2
      = [JSONRPCResponse.create_error
          { code := JSONRPCErrorCodes.PARSE_ERROR,
            message := "Parse error: " ++ e }
          (recover_request_id line)]
    ∧ (receive_message line).2.length = 1 := by
  unfold receive_message
  rw [if_neg hne, hfail]
  exact ⟨rfl, rfl, rfl⟩

/-- C5 witness: a malformed line whose string-id regex scan recovers
`"test"` (mirroring the repository's own stdio-transport test). -/
theorem receive_malformed_sends_one_error_witness :
    (receive_message
        { text := "bad line with id -- test", loads := none,
          regex_str_id := some "test", regex_num_id := none }).1 = none
    ∧ (receive_message
        { text := "bad line with id -- test", loads := none,
          regex_str_id := some "test", regex_num_id := none }).2
      = [JSONRPCResponse.create_error
          { code := JSONRPCErrorCodes.PARSE_ERROR,
            message := "Parse error: " ++ "Invalid JSON" } (.str "test")] :=
  ⟨(receive_malformed_sends_one_error
      { text := "bad line with id -- test", loads := none,
        regex_str_id := some "test", regex_num_id := none }
      "Invalid JSON" (by decide) rfl).1,
   (receive_malformed_sends_one_error
      { text := "bad line with id -- test", loads := none,
        regex_str_id := some "test", regex_num_id := none }
      "Invalid JSON" (by decide) rfl).2.1⟩

theorem makeRequestAux_attempts_le (env : Nat → AttemptOutcome)
    (retries : Nat) :
    ∀ fuel attempt sleeps,
      (makeRequestAux env retries fuel attempt sleeps).2.1 ≤ attempt + fuel := by
  intro fuel
  induction fuel with
  | zero =>
      intro a s
      simp [makeRequestAux]
  | succ f ih =>
      intro a s
      show (makeRequestAux env retries (f + 1) a s).2.1 ≤ a + (f + 1)
      rw [makeRequestAux]
      cases h : env a with
      | resp status ra body =>
          by_cases h1 : status = 401
          · simp [h1]
          · by_cases h2 : status = 429
            · by_cases h3 : a < retries
              · simp [h1, h2, h3]
                exact le_trans (ih (a + 1) _) (by omega)
              · simp [h1, h2, h3]
            · by_cases h4 : 400 ≤ status
              · simp [h1, h2, h4]
              · simp [h1, h2, h4]
      | timeout =>
          by_cases h3 : a < retries
          · simp [h3]
            exact le_trans (ih (a + 1) _) (by omega)
          · simp [h3]
      | connect_error =>
          by_cases h3 : a < retries
          · simp [h3]
            exact le_trans (ih (a + 1) _) (by omega)
          · simp [h3]

/-- C7: with the default `retries = 3` the request primitive makes at
most 4 attempts; connection errors on the first two attempts followed by
a success return the result after exactly 3 attempts having slept 1 then
2 units; a 401 fails as an authentication error after exactly 1 attempt
with no sleeps; all-connection-error and all-timeout runs make 4
attempts sleeping 1, 2, 4 between successive attempts. -/
theorem make_request_retry_discipline :
    (∀ env : Nat → AttemptOutcome, (make_request env 3).2.1 ≤ 4)
    ∧ make_request (fun n => if n < 2 then .connect_error
        else .resp 200 none (.obj [("ok", .bool true)])) 3
      = (.ok (.obj [("ok", .bool true)]), 3, [1, 2])
    ∧ make_request (fun _ => .resp 401 none (.obj [])) 3
      = (.error (.valueError authFailedMsg), 1, [])
    ∧ make_request (fun _ => .connect_error) 3
      = (.error (.valueError connectFailedMsg), 4, [1, 2, 4])
    ∧ make_request (fun _ => .timeout) 3
      = (.error (.valueError timeoutFailedMsg), 4, [1, 2, 4]) := by
  refine ⟨?_, rfl, rfl, rfl, rfl⟩
  intro env
  exact makeRequestAux_attempts_le env 3 4 0 []

/-- C8: `acquire` first discards timestamps older than the window, and
whatever it returns records the pruned list plus the new call (it never
rejects); when the pruned count is at (or beyond) the limit, the slept
wait equals the time until the oldest retained timestamp exits the
window and that wait is strictly positive; below the limit no wait
occurs. -/
theorem rate_limiter_window (st : RateLimiter) (now : ℚ) :
    (∀ (w : ℚ) (st' : RateLimiter), st.acquire now = some (w, st') →
      st'.requests
        = st.requests.filter (fun t => now - (st.time_window : ℚ) < t) ++ [now])
    ∧ (∀ (x : ℚ) (xs : List ℚ),
        st.requests.filter (fun t => now - (st.time_window : ℚ) < t) = x :: xs →
        st.max_requests ≤ (x :: xs).length →
        st.acquire now
          = some (pyMin x xs + (st.time_window : ℚ) - now,
              { st with requests := (x :: xs) ++ [now] })
        ∧ 0 < pyMin x xs + (st.time_window : ℚ) - now)
    ∧ ((st.requests.filter (fun t => now - (st.time_window : ℚ) < t)).length
          < st.max_requests →
        st.acquire now
          = some (0, { st with requests :=
              st.requests.filter (fun t => now - (st.time_window : ℚ) < t)
                ++ [now] })) := by
  refine ⟨?_, ?_, ?_⟩
  · intro w st' h
    simp only [RateLimiter.acquire] at h
    by_cases hc : st.max_requests
        ≤ (st.requests.filter (fun t => now - (st.time_window : ℚ) < t)).length
    · rw [if_pos hc] at h
      cases hp : st.requests.filter (fun t => now - (st.time_window : ℚ) < t) with
      | nil =>
          rw [hp] at h
          exact Option.noConfusion h
      | cons x xs =>
          rw [hp] at h
          injection h with h1
          simp only [Prod.mk.injEq] at h1
          obtain ⟨h2, h3⟩ := h1
          subst h3
          rfl
    · rw [if_neg hc] at h
      injection h with h1
      simp only [Prod.mk.injEq] at h1
      obtain ⟨h2, h3⟩ := h1
      subst h3
      rfl
  · intro x xs hpr hlim
    have hmem : pyMin x xs ∈ x :: xs := pyMin_mem x xs
    rw [← hpr] at hmem
    have hfp := List.mem_filter.mp hmem
    have hlt : now - (st.time_window : ℚ) < pyMin x xs := by
      simpa using hfp.2
    have hpos : 0 < pyMin x xs + (st.time_window : ℚ) - now := by linarith
    refine ⟨?_, hpos⟩
    simp only [RateLimiter.acquire]
    rw [hpr, if_pos hlim]
    simp [hpos]
  · intro hlt
    simp only [RateLimiter.acquire]
    rw [if_neg (not_le.mpr hlt)]

/-- C8 witness: limit 2, window 60, two calls at times 10 and 20 still
inside the window; the third call at time 30 sleeps 10 + 60 - 30 = 40 >
0 and is recorded, not rejected. -/
theorem rate_limiter_window_witness :
    ({ max_requests := 2, time_window := 60,
       requests := [10, 20] } : RateLimiter).acquire 30
      = some (pyMin 10 [20] + (((60 : Nat) : ℚ)) - 30,
          { max_requests := 2, time_window := 60,
            requests := [10, 20, 30] })
    ∧ 0 < pyMin 10 [20] + (((60 : Nat) : ℚ)) - 30 :=
  (rate_limiter_window
      { max_requests := 2, time_window := 60, requests := [10, 20] } 30).2.1
    10 [20] (by norm_num) (by norm_num)
